import Mathlib

/-!
Verification of the TaskAdderBot core pipeline (`src/main.py`): a shallow
embedding of the name normalizer, the deadline logic, the task-creation
retry loop, the classification dispatch, and the reply mutation resolver,
together with theorems settling the specification's claims about them.

Python conventions modelled explicitly:
* optional / possibly-missing dictionary string fields are `Option String`
  (`none` = key missing or value `None`);
* Python truthiness of a string field: `None` and `""` are falsy;
* `dict.get(k, default)` returns the default only when the key is missing.
-/

namespace TaskAdderBot

/-! ### Python string primitives

Executable character-list implementations of the Python string methods the
code uses (`.strip()`, `.lower()`, `.split`, `int` conversion), so that all
theorems can be checked by kernel evaluation. -/

/-- Python `str.strip()`: drop whitespace from both ends. -/
def pyStrip (s : String) : String :=
  ⟨((s.data.dropWhile Char.isWhitespace).reverse.dropWhile Char.isWhitespace).reverse⟩

/-- Python `str.lower()` (ASCII case mapping suffices for the code's data). -/
def pyLower (s : String) : String :=
  ⟨s.data.map Char.toLower⟩

/-- Split a character list on a separator character (like `str.split(sep)`,
keeping empty groups). -/
def splitOnChar (c : Char) : List Char → List (List Char)
  | [] => [[]]
  | a :: rest =>
    let r := splitOnChar c rest
    if a = c then [] :: r
    else
      match r with
      | [] => [[a]]
      | g :: gs => (a :: g) :: gs

/-- Numeric value of an all-digit character list. -/
def digitsValue (cs : List Char) : Nat :=
  cs.foldl (fun n c => n * 10 + (c.toNat - 48)) 0

/-- CPython `strptime` field `%Y`: exactly four digits (`\d\d\d\d`). -/
def matchY (cs : List Char) : Option Nat :=
  if cs.length = 4 ∧ cs.all Char.isDigit then some (digitsValue cs) else none

/-- CPython `strptime` field `%m`: the regex `1[0-2]|0[1-9]|[1-9]`,
i.e. one or two digits with value 1 to 12 (no space padding). -/
def matchM (cs : List Char) : Option Nat :=
  if 1 ≤ cs.length ∧ cs.length ≤ 2 ∧ cs.all Char.isDigit
      ∧ 1 ≤ digitsValue cs ∧ digitsValue cs ≤ 12 then
    some (digitsValue cs)
  else none

/-- CPython `strptime` field `%d`: the regex
`3[01]|[12]\d|0[1-9]|[1-9]| [1-9]`, i.e. one or two digits with value
1 to 31, or a space followed by a non-zero digit. -/
def matchD (cs : List Char) : Option Nat :=
  if 1 ≤ cs.length ∧ cs.length ≤ 2 ∧ cs.all Char.isDigit
      ∧ 1 ≤ digitsValue cs ∧ digitsValue cs ≤ 31 then
    some (digitsValue cs)
  else
    match cs with
    | [' ', c] => if '1' ≤ c ∧ c ≤ '9' then some (c.toNat - 48) else none
    | _ => none

/-! ### Officer directory and the name normalizer (`normalize_to_display_name`, main.py 64-86) -/

/-- One entry of the officer directory as returned by the employee API:
both fields may be missing. -/
structure Officer where
  name : Option String
  display_name : Option String
  deriving DecidableEq, Repr

/-- `e.get('display_name', '').strip()` for an entry. -/
def Officer.disp (e : Officer) : String := pyStrip (e.display_name.getD "")

/-- `e.get('name', '').strip()` for an entry. -/
def Officer.casual (e : Officer) : String := pyStrip (e.name.getD "")

/-- Predicate of the first loop in `normalize_to_display_name`:
`disp.lower() == target`. -/
def dispMatches (target : String) (e : Officer) : Bool :=
  pyLower e.disp == target

/-- Predicate of the second loop: `name.lower() == target`. -/
def casualMatches (target : String) (e : Officer) : Bool :=
  pyLower e.casual == target

/-- Embedding of `normalize_to_display_name(officers, assigned_name)`
(main.py 64-86).  `assigned_name = none` models Python `None`; the guard
`if not assigned_name` also catches the empty string. -/
def normalize_to_display_name (officers : List Officer) (assigned_name : Option String) : String :=
  if assigned_name = none ∨ assigned_name = some "" then "Steno"
  else
    let s := assigned_name.getD ""
    let target := pyStrip (pyLower s)
    match officers.find? (dispMatches target) with
    | some e => e.disp
    | none =>
      match officers.find? (casualMatches target) with
      | some e => e.display_name.getD e.casual
      | none => s

/-! ### Dates (`datetime.date`, `strptime`/`strftime "%Y-%m-%d"`, `timedelta`) -/

/-- A calendar date.  The fields are as produced by `strptime "%Y-%m-%d"`:
`1 ≤ month ≤ 12`, `1 ≤ day ≤ daysInMonth`, `1 ≤ year ≤ 9999` on every value
obtained from parsing. -/
structure Date where
  year : Nat
  month : Nat
  day : Nat
  deriving DecidableEq, Repr

def isLeap (y : Nat) : Bool :=
  (y % 4 == 0 && y % 100 != 0) || (y % 400 == 0)

def daysInMonth (y m : Nat) : Nat :=
  if m = 2 then (if isLeap y then 29 else 28)
  else if m = 4 ∨ m = 6 ∨ m = 9 ∨ m = 11 then 30
  else 31

/-- Serial day number of a civil date (days since 0000-03-01, the standard
era-based conversion used by `datetime` arithmetic). -/
def Date.toDays (dt : Date) : Int :=
  let y : Int := if dt.month ≤ 2 then (dt.year : Int) - 1 else (dt.year : Int)
  let m : Int := dt.month
  let d : Int := dt.day
  let era : Int := (if 0 ≤ y then y else y - 399) / 400
  let yoe : Int := y - era * 400
  let mp : Int := (m + 9) % 12
  let doy : Int := (153 * mp + 2) / 5 + d - 1
  let doe : Int := yoe * 365 + yoe / 4 - yoe / 100 + doy
  era * 146097 + doe

/-- Inverse of `Date.toDays`: civil date of a serial day number. -/
def Date.ofDays (z : Int) : Date :=
  let era : Int := (if 0 ≤ z then z else z - 146096) / 146097
  let doe : Int := z - era * 146097
  let yoe : Int := (doe - doe / 1460 + doe / 36524 - doe / 146096) / 365
  let y : Int := yoe + era * 400
  let doy : Int := doe - (365 * yoe + yoe / 4 - yoe / 100)
  let mp : Int := (5 * doy + 2) / 153
  let d : Int := doy - (153 * mp + 2) / 5 + 1
  let m : Int := mp + (if mp < 10 then 3 else -9)
  ⟨(if m ≤ 2 then y + 1 else y).toNat, m.toNat, d.toNat⟩

/-- `date + timedelta(days = n)`. -/
def Date.addDays (dt : Date) (n : Int) : Date := Date.ofDays (dt.toDays + n)

/-- `(d2 - d1).days`. -/
def Date.sub (d2 d1 : Date) : Int := d2.toDays - d1.toDays

def pad2 (n : Nat) : String := if n < 10 then "0" ++ toString n else toString n

def pad4 (n : Nat) : String :=
  if n < 10 then "000" ++ toString n
  else if n < 100 then "00" ++ toString n
  else if n < 1000 then "0" ++ toString n
  else toString n

/-- `date.strftime("%Y-%m-%d")`. -/
def Date.format (dt : Date) : String :=
  pad4 dt.year ++ "-" ++ pad2 dt.month ++ "-" ++ pad2 dt.day

/-- `datetime.strptime(s, "%Y-%m-%d").date()` as a partial function:
`none` models the `ValueError` branch.  CPython compiles the format to the
full-match regex `(?P<Y>\d\d\d\d)-(?P<m>1[0-2]|0[1-9]|[1-9])-(?P<d>3[01]|[12]\d|0[1-9]|[1-9]| [1-9])`
and then constructs `datetime(Y, m, d)`, which raises for year 0 and for a
day beyond the month's length.  Since none of the three field regexes can
consume a `'-'` and the literal dashes must all be matched with nothing
left over, matching is equivalent to splitting on `'-'` into exactly three
groups and matching each group in full. -/
def parseDate (s : String) : Option Date :=
  match splitOnChar '-' s.data with
  | [ys, ms, ds] =>
    match matchY ys, matchM ms, matchD ds with
    | some y, some m, some d =>
      if 1 ≤ y ∧ d ≤ daysInMonth y m then some ⟨y, m, d⟩ else none
    | _, _, _ => none
  | _ => none

/-! ### Deadline logic (main.py 213-222)

The code reads `task_data.get('deadline_date')` (truthiness: missing, `None`
and `""` all take the default branch), and on the parse-success branch sets
only `time_given`; on the parse-failure branch it sets `time_given = "7"`
and leaves `deadline_date` as the raw string; on the default branch it sets
both `time_given = "7"` and `deadline_date = allocated + 7 days`. -/

/-- Result: the final `(deadline_date, time_given)` pair of the task dict. -/
def deadlineLogic (d1 : Date) (rawDeadline : Option String) : String × String :=
  match rawDeadline with
  | some s =>
    if s ≠ "" then
      match parseDate s with
      | some d2 => (s, toString (Date.sub d2 d1))
      | none => (s, "7")
    else ((d1.addDays 7).format, "7")
  | none => ((d1.addDays 7).format, "7")

/-! ### Task number derivation and the collision retry loop (main.py 197-239) -/

/-- `task_data.get('description', f'Task {i+1}')` (main.py 198): the
positional placeholder is used only when the `description` key is missing;
`i` is the 0-based index of the task in the batch. -/
def taskNumberBase (descField : Option String) (i : Nat) : String :=
  match descField with
  | some s => s
  | none => "Task " ++ toString (i + 1)

/-- `"" if attempt == 1 else f" ({attempt})"` (main.py 226). -/
def suffixFor (attempt : Nat) : String :=
  if attempt = 1 then "" else " (" ++ toString attempt ++ ")"

/-- `original_desc + suffix` as assigned to `task_number` (main.py 227). -/
def attemptTaskNumber (descField : Option String) (i attempt : Nat) : String :=
  taskNumberBase descField i ++ suffixFor attempt

/-- One persistence attempt of the retry loop: the record handed to
`process_task_creation`, its outcome, and whether its failure produced a
user-visible error message. -/
structure AttemptRec where
  attempt : Nat
  task_number : String
  description : String
  ok : Bool
  errVisible : Bool
  deriving DecidableEq, Repr

/-- The body of `for attempt in range(1, 6)` (main.py 225-234), run over the
remaining attempt numbers.  `post k` abstracts whether `process_task_creation`
succeeds on the k-th attempt (2xx response; any non-2xx status or exception
is `false`).  `process_task_creation` shows a failure message exactly when
`suppress_error` is false, i.e. when `attempt == 5` (main.py 116-117, 230-231);
the loop `break`s on the first success. -/
def retryGo (post : Nat → Bool) (orig : String) : List Nat → List AttemptRec
  | [] => []
  | a :: rest =>
    let r : AttemptRec := ⟨a, orig ++ suffixFor a, "", post a, !post a && a == 5⟩
    if post a then [r] else r :: retryGo post orig rest

/-- The full retry loop for one task: attempts `1` to `5`. -/
def retryLoop (post : Nat → Bool) (orig : String) : List AttemptRec :=
  retryGo post orig [1, 2, 3, 4, 5]

/-- The commit of one extracted task: retry loop run on the derived base
task number (main.py 198/227). -/
def commitTask (post : Nat → Bool) (descField : Option String) (i : Nat) : List AttemptRec :=
  retryLoop post (taskNumberBase descField i)

/-! ### Classification parsing and dispatch (main.py 180-263) -/

/-- Python values as deserialized by `json.loads`. -/
inductive PyVal where
  | null
  | bool (b : Bool)
  | num (n : Int)
  | str (s : String)
  | list (l : List PyVal)
  | obj (fields : List (String × PyVal))

/-- `dict.get(k)`: `none` when the key is missing. -/
def pyGet (fields : List (String × PyVal)) (k : String) : Option PyVal :=
  (fields.find? (fun p => p.fst == k)).map Prod.snd

/-- `data if isinstance(data, list) else [data]` (main.py 191). -/
def toTaskList (data : PyVal) : List PyVal :=
  match data with
  | .list l => l
  | d => [d]

/-- Stripping of the optional fenced-code wrapper (main.py 180-182). -/
def stripFence (raw : String) : String :=
  let s := (pyStrip raw).data
  if s.take 7 = "```json".data then pyStrip ⟨(s.drop 7).take ((s.drop 7).length - 3)⟩
  else if s.take 3 = "```".data then pyStrip ⟨(s.drop 3).take ((s.drop 3).length - 3)⟩
  else s.asString

/-- Where `handle_core_logic` goes after parsing the model response. -/
inductive DispatchResult where
  /-- An exception was raised and caught at main.py 261-263: an error
  message is sent to the user and nothing else happens. -/
  | exceptionError
  /-- `intent` missing or unrecognized: both `if` branches are skipped and
  the handler returns with no message and no backend call. -/
  | silentNoop
  /-- The CREATE branch is entered with this task list. -/
  | createFlow (tasks : List PyVal)
  /-- The QUERY branch is entered with this data object. -/
  | queryFlow (data : PyVal)

/-- Python `v == "s"` for an optional value `v`: true exactly when the value
is present, is a string, and equals `s` (comparison with `None` or a
non-string is `False`). -/
def intentIs (v : Option PyVal) (s : String) : Bool :=
  match v with
  | some (.str t) => t == s
  | _ => false

/-- Dispatch on the parsed model response (main.py 184-263).  `parsed` is
the outcome of `json.loads` on the stripped response text: `none` models a
`JSONDecodeError` (caught at 261, reported as an error); a non-dict value
makes `classification.get` raise `AttributeError` (same handler). -/
def coreDispatch (parsed : Option PyVal) : DispatchResult :=
  match parsed with
  | none => .exceptionError
  | some (.obj fields) =>
    let intent := pyGet fields "intent"
    let data := (pyGet fields "data").getD .null
    if intentIs intent "CREATE" then .createFlow (toTaskList data)
    else if intentIs intent "QUERY" then .queryFlow data
    else .silentNoop
  | some _ => .exceptionError

/-- Whether the dispatch outcome sends an error message to the user. -/
def DispatchResult.errorShown : DispatchResult → Bool
  | .exceptionError => true
  | _ => false

/-- Whether the dispatch outcome can reach `requests.post(API_URL, ...)`:
only the CREATE branch posts task-creation requests. -/
def DispatchResult.reachesCreatePost : DispatchResult → Bool
  | .createFlow _ => true
  | _ => false

/-- `if not task_list: ... return` guard of the CREATE branch (main.py 192-194):
the task list actually processed, or an error for an empty one. -/
def createBranch (data : PyVal) : Except String (List PyVal) :=
  let tl := toTaskList data
  if tl.isEmpty then .error "no tasks understood" else .ok tl

/-! ### Reply mutation resolver (`handle_reply_logic`, main.py 346-436) -/

/-- `re.search(r"Ref: #(\d+)", text)` restricted to one position: if the
character list starts with `Ref: #` followed by at least one digit, the
maximal digit run (the capture group). -/
def refAt (cs : List Char) : Option (List Char) :=
  if cs.take 6 = ['R', 'e', 'f', ':', ' ', '#'] then
    let ds := (cs.drop 6).takeWhile Char.isDigit
    if ds.isEmpty then none else some ds
  else none

def findRefAux : List Char → Option String
  | [] => none
  | c :: rest =>
    match refAt (c :: rest) with
    | some ds => some (String.mk ds)
    | none => findRefAux rest

/-- `re.search(r"Ref: #(\d+)", original_text)` and `match.group(1)`
(main.py 352-357): the leftmost occurrence's digit group. -/
def extractRef (text : String) : Option String :=
  findRefAux text.data

/-- Parsed modification intent returned by the model for a reply
(main.py 382-395): abstracts the model call plus JSON parse. -/
inductive RAction where
  | delete
  | update (fields : List (String × String))
  | unknown
  deriving DecidableEq, Repr

/-- Observable effects of `handle_reply_logic`, in order. -/
inductive Eff where
  | lmCall
  | apiDelete (id : String)
  | apiPut (id : String)
  | apiGet (id : String)
  | userMsg (tag : String)
  deriving DecidableEq, Repr

/-- Effect trace of `handle_reply_logic` (main.py 346-436).  `act` is the
parsed model classification of the reply, `apiOk` whether the backend call
of the chosen branch returns status 200. -/
def replyTrace (originalText : String) (act : RAction) (apiOk : Bool) : List Eff :=
  match extractRef originalText with
  | none => [.userMsg "cannot_modify"]
  | some id =>
    .lmCall ::
      (match act with
       | .delete =>
         [.apiDelete id, .userMsg (if apiOk then "deleted" else "delete_failed")]
       | .update fields =>
         if fields.isEmpty then [.userMsg "no_changes"]
         else .apiPut id ::
           (if apiOk then [.apiGet id, .userMsg "updated"] else [.userMsg "update_failed"])
       | .unknown => [.userMsg "unrecognized"])

/-! ## Theorems settling the claims -/

/-- C4: `normalize_to_display_name` tries, in order: (a) default identity
`"Steno"` for a null or empty candidate; (b) case-insensitive exact match
against an entry's display name, returning that canonical display name;
(c) case-insensitive exact match against an entry's casual name, returning
the paired display name; (d) otherwise the candidate unchanged — with the
three concrete examples of the spec on the directory
`[{name: "Ramlal Korram", displayName: "Steno"}]`. -/
theorem normalize_rules_in_order :
    (∀ officers : List Officer,
      normalize_to_display_name officers none = "Steno"
      ∧ normalize_to_display_name officers (some "") = "Steno")
    ∧ (∀ (officers : List Officer) (s : String), s ≠ "" →
        (∃ e ∈ officers, dispMatches (pyStrip (pyLower s)) e = true) →
        ∃ e ∈ officers, dispMatches (pyStrip (pyLower s)) e = true
          ∧ normalize_to_display_name officers (some s) = e.disp)
    ∧ (∀ (officers : List Officer) (s : String), s ≠ "" →
        (∀ e ∈ officers, dispMatches (pyStrip (pyLower s)) e = false) →
        (∃ e ∈ officers, casualMatches (pyStrip (pyLower s)) e = true) →
        ∃ e ∈ officers, casualMatches (pyStrip (pyLower s)) e = true
          ∧ normalize_to_display_name officers (some s) = e.display_name.getD e.casual)
    ∧ (∀ (officers : List Officer) (s : String), s ≠ "" →
        (∀ e ∈ officers, dispMatches (pyStrip (pyLower s)) e = false
          ∧ casualMatches (pyStrip (pyLower s)) e = false) →
        normalize_to_display_name officers (some s) = s)
    ∧ normalize_to_display_name [⟨some "Ramlal Korram", some "Steno"⟩] (some "STENO") = "Steno"
    ∧ normalize_to_display_name [⟨some "Ramlal Korram", some "Steno"⟩] (some "ramlal korram") = "Steno"
    ∧ normalize_to_display_name [⟨some "Ramlal Korram", some "Steno"⟩] (some "Unknown Person")
        = "Unknown Person" := by
  refine ⟨fun officers => ⟨rfl, rfl⟩, ?_, ?_, ?_, by decide, by decide, by decide⟩
  · intro officers s hs hex
    have h1 : (officers.find? (dispMatches (pyStrip (pyLower s)))).isSome :=
      List.find?_isSome.mpr (by simpa using hex)
    obtain ⟨e, he⟩ := Option.isSome_iff_exists.mp h1
    exact ⟨e, List.mem_of_find?_eq_some he, List.find?_some he,
      by simp [normalize_to_display_name, hs, he]⟩
  · intro officers s hs hnone hex
    have h0 : officers.find? (dispMatches (pyStrip (pyLower s))) = none :=
      List.find?_eq_none.mpr (by intro e he; simp [hnone e he])
    have h1 : (officers.find? (casualMatches (pyStrip (pyLower s)))).isSome :=
      List.find?_isSome.mpr (by simpa using hex)
    obtain ⟨e, he⟩ := Option.isSome_iff_exists.mp h1
    exact ⟨e, List.mem_of_find?_eq_some he, List.find?_some he,
      by simp [normalize_to_display_name, hs, h0, he]⟩
  · intro officers s hs hnone
    have h0 : officers.find? (dispMatches (pyStrip (pyLower s))) = none :=
      List.find?_eq_none.mpr (by intro e he; simp [(hnone e he).1])
    have h1 : officers.find? (casualMatches (pyStrip (pyLower s))) = none :=
      List.find?_eq_none.mpr (by intro e he; simp [(hnone e he).2])
    simp [normalize_to_display_name, hs, h0, h1]

/-- C4 witness: the conditional clauses instantiated on the concrete
one-entry directory. -/
theorem normalize_rules_in_order_witness :
    ∃ e ∈ [(⟨some "Ramlal Korram", some "Steno"⟩ : Officer)],
      dispMatches (pyStrip (pyLower "STENO")) e = true
      ∧ normalize_to_display_name [⟨some "Ramlal Korram", some "Steno"⟩] (some "STENO") = e.disp :=
  normalize_rules_in_order.2.1 [⟨some "Ramlal Korram", some "Steno"⟩] "STENO"
    (by decide) ⟨⟨some "Ramlal Korram", some "Steno"⟩, by decide, by decide⟩

/-- C5: `normalize_to_display_name` is total: for every directory and every
candidate (including null/empty and the empty directory) it returns a plain
string, which is either the default identity, a field of some directory
entry, or the candidate itself — no failure case exists. -/
theorem normalize_total (officers : List Officer) (cand : Option String) :
    normalize_to_display_name officers cand = "Steno"
    ∨ (∃ e ∈ officers,
        normalize_to_display_name officers cand = e.disp
        ∨ normalize_to_display_name officers cand = e.display_name.getD e.casual)
    ∨ (∃ s, cand = some s ∧ normalize_to_display_name officers cand = s) := by
  rcases cand with _ | s
  · exact Or.inl rfl
  by_cases hs : s = ""
  · subst hs; exact Or.inl rfl
  rcases hf : officers.find? (dispMatches (pyStrip (pyLower s))) with _ | e
  · rcases hg : officers.find? (casualMatches (pyStrip (pyLower s))) with _ | e
    · exact Or.inr (Or.inr ⟨s, rfl, by simp [normalize_to_display_name, hs, hf, hg]⟩)
    · exact Or.inr (Or.inl ⟨e, List.mem_of_find?_eq_some hg,
        Or.inr (by simp [normalize_to_display_name, hs, hf, hg])⟩)
  · exact Or.inr (Or.inl ⟨e, List.mem_of_find?_eq_some hf,
      Or.inl (by simp [normalize_to_display_name, hs, hf])⟩)

/-- C6: with `rawDeadline` absent the deadline logic unconditionally
returns `deadline_date = allocated + 7 days` and `time_given = "7"`;
concretely `2024-01-01 ↦ 2024-01-08`. -/
theorem deadline_default_when_absent :
    (∀ d1 : Date, deadlineLogic d1 none = ((d1.addDays 7).format, "7"))
    ∧ deadlineLogic ⟨2024, 1, 1⟩ none = ("2024-01-08", "7") :=
  ⟨fun _ => rfl, by decide⟩

/-- C3 counterexample: on an unparseable `rawDeadline` the code sets
`time_given = "7"` but leaves `deadline_date` as the raw string, so the
resulting deadline is NOT `allocatedDate + 7 days` as the claim states. -/
theorem deadline_parse_failure_cex :
    deadlineLogic ⟨2024, 1, 1⟩ (some "not-a-date") = ("not-a-date", "7")
    ∧ ¬((deadlineLogic ⟨2024, 1, 1⟩ (some "not-a-date")).fst
        = (Date.addDays ⟨2024, 1, 1⟩ 7).format) := by decide

/-- C3 (amended): for a present, non-empty `rawDeadline` that fails to
parse, the deadline logic sets `time_given = "7"`, leaves `deadline_date`
equal to the raw string unchanged, and raises no exception (it is a total
function); `"not-a-date"` indeed fails to parse.  The boundary cases of
`strptime "%Y-%m-%d"` are as in CPython: the space-padded day
`"2024-01- 5"` parses (so, from 2024-01-01, the success branch computes
`time_given = "4"`), while the three-digit year `"999-01-01"` does not. -/
theorem deadline_parse_failure_amended :
    (∀ (d1 : Date) (s : String), s ≠ "" → parseDate s = none →
      deadlineLogic d1 (some s) = (s, "7"))
    ∧ parseDate "not-a-date" = none
    ∧ parseDate "2024-01- 5" = some ⟨2024, 1, 5⟩
    ∧ deadlineLogic ⟨2024, 1, 1⟩ (some "2024-01- 5") = ("2024-01- 5", "4")
    ∧ parseDate "999-01-01" = none := by
  refine ⟨?_, by decide, by decide, by decide, by decide⟩
  intro d1 s hs hp
  simp [deadlineLogic, hs, hp]

/-- C3 witness: the amended statement applied at the spec's example. -/
theorem deadline_parse_failure_amended_witness :
    deadlineLogic ⟨2024, 1, 1⟩ (some "not-a-date") = ("not-a-date", "7") :=
  deadline_parse_failure_amended.1 ⟨2024, 1, 1⟩ "not-a-date" (by decide) (by decide)

/-- Every record of the retry loop has its description cleared (helper for
the loop body, main.py 228). -/
theorem retryGo_description_empty (post : Nat → Bool) (orig : String) :
    ∀ (fuel : List Nat), ∀ r ∈ retryGo post orig fuel, r.description = "" := by
  intro fuel
  induction fuel with
  | nil => intro r hr; simp [retryGo] at hr
  | cons a rest ih =>
    intro r hr
    simp only [retryGo] at hr
    split at hr
    · simp at hr; subst hr; rfl
    · rcases List.mem_cons.mp hr with h | h
      · subst h; rfl
      · exact ih r h

theorem suffixFor_one : suffixFor 1 = "" := rfl

theorem suffixFor_two : suffixFor 2 = " (2)" := by decide

theorem suffixFor_three : suffixFor 3 = " (3)" := by decide

theorem suffixFor_four : suffixFor 4 = " (4)" := by decide

theorem suffixFor_five : suffixFor 5 = " (5)" := by decide

/-- C1: for every backend behavior `post` and extracted description `orig`,
the commit loop makes at most 5 attempts, numbered consecutively from 1;
attempt 1 posts `orig` with no suffix and attempt k posts `orig ++ " (k)"`;
a failure is user-visible exactly on a failed 5th attempt; a successful
attempt is always the last one made (the loop stops at the first success);
and when every attempt fails, all 5 suffixes are tried and only the 5th
failure is visible. -/
theorem commit_retry_spec (post : Nat → Bool) (orig : String) :
    (retryLoop post orig).length ≤ 5
    ∧ (retryLoop post orig).map AttemptRec.attempt
        = List.range' 1 (retryLoop post orig).length
    ∧ (∀ r ∈ retryLoop post orig, r.task_number = orig ++ suffixFor r.attempt)
    ∧ suffixFor 1 = "" ∧ suffixFor 2 = " (2)" ∧ suffixFor 3 = " (3)"
      ∧ suffixFor 4 = " (4)" ∧ suffixFor 5 = " (5)"
    ∧ (∀ r ∈ retryLoop post orig, r.errVisible = true ↔ (r.attempt = 5 ∧ r.ok = false))
    ∧ (∀ r ∈ retryLoop post orig, r.ok = true → (retryLoop post orig).length = r.attempt)
    ∧ ((post 1 = false ∧ post 2 = false ∧ post 3 = false ∧ post 4 = false
          ∧ post 5 = false) →
        (retryLoop post orig).map AttemptRec.task_number
          = [orig, orig ++ " (2)", orig ++ " (3)", orig ++ " (4)", orig ++ " (5)"]
        ∧ (retryLoop post orig).map AttemptRec.errVisible
          = [false, false, false, false, true]) := by
  cases h1 : post 1 <;> cases h2 : post 2 <;> cases h3 : post 3 <;>
    cases h4 : post 4 <;> cases h5 : post 5 <;>
      simp [retryLoop, retryGo, h1, h2, h3, h4, h5, List.range',
        suffixFor_one, suffixFor_two, suffixFor_three, suffixFor_four, suffixFor_five]

/-- C1 witness: an always-failing backend, instantiating the conditional
clause. -/
theorem commit_retry_spec_witness :
    (retryLoop (fun _ => false) "Fix the pump").map AttemptRec.errVisible
      = [false, false, false, false, true] :=
  ((commit_retry_spec (fun _ => false) "Fix the pump").2.2.2.2.2.2.2.2.2.2
    ⟨rfl, rfl, rfl, rfl, rfl⟩).2

/-- C7: every record the retry loop hands to the backend — on every attempt,
retries included — has its `description` field cleared to the empty string
(main.py 228), its content having been promoted into `task_number`. -/
theorem retry_description_cleared (post : Nat → Bool) (orig : String) :
    ∀ r ∈ retryLoop post orig, r.description = "" :=
  retryGo_description_empty post orig [1, 2, 3, 4, 5]

/-- C7 witness: the first attempt of an always-failing run. -/
theorem retry_description_cleared_witness :
    (⟨1, "x", "", false, false⟩ : AttemptRec).description = "" :=
  retry_description_cleared (fun _ => false) "x" ⟨1, "x", "", false, false⟩ (by decide)

/-- C8 counterexample: a task whose `description` key is present but equal
to `""` is NOT given the positional placeholder — `dict.get`'s default only
applies to a missing key — so the first attempt posts an empty
`task_number`, contradicting both the claimed fallback and the claimed
"no task is committed with an empty taskNumber". -/
theorem taskNumber_empty_description_cex :
    taskNumberBase (some "") 0 = ""
    ∧ (commitTask (fun _ => false) (some "") 0).map AttemptRec.task_number
        = ["", " (2)", " (3)", " (4)", " (5)"]
    ∧ "" ≠ "Task 1" := by decide

/-- C8 (amended): `task_number` is derived from the task's description, and
the positional placeholder `"Task i"` (1-based) is used only when the
`description` key is missing entirely; a present description — even the
empty string — is used verbatim, so a present-but-empty description commits
an empty `task_number` on the first attempt. -/
theorem taskNumber_fallback_amended :
    (∀ i : Nat, taskNumberBase none i = "Task " ++ toString (i + 1))
    ∧ (∀ (s : String) (i : Nat), taskNumberBase (some s) i = s)
    ∧ (∀ (s : String) (i : Nat) (post : Nat → Bool),
        (commitTask post (some s) i).map AttemptRec.task_number
          = (commitTask post (some s) i).map (fun r => s ++ suffixFor r.attempt)) := by
  refine ⟨fun i => rfl, fun s i => rfl, ?_⟩
  intro s i post
  simp only [commitTask, retryLoop, taskNumberBase]
  cases h1 : post 1 <;> cases h2 : post 2 <;> cases h3 : post 3 <;>
    cases h4 : post 4 <;> cases h5 : post 5 <;>
      simp [retryGo, h1, h2, h3, h4, h5]

/-- C2 counterexample: a model response that parses as JSON but lacks the
`intent` key (here the empty object, i.e. response text `"{}"`) is
abandoned silently: no error message is shown to the user, contradicting
the claim that the failure is reported as an error. -/
theorem extraction_missing_intent_cex :
    pyGet [] "intent" = none
    ∧ coreDispatch (some (PyVal.obj [])) = DispatchResult.silentNoop
    ∧ (coreDispatch (some (PyVal.obj []))).errorShown = false :=
  ⟨rfl, rfl, rfl⟩

/-- C2 (amended): a JSON parse failure is reported to the user as an error
and no task-creation POST is reached; a response that parses but lacks the
`intent` key is likewise abandoned with no task-creation POST, but silently
— no error message is shown. -/
theorem extraction_error_handling_amended :
    (coreDispatch none = DispatchResult.exceptionError
      ∧ (coreDispatch none).errorShown = true
      ∧ (coreDispatch none).reachesCreatePost = false)
    ∧ (∀ fields, pyGet fields "intent" = none →
        coreDispatch (some (PyVal.obj fields)) = DispatchResult.silentNoop
        ∧ (coreDispatch (some (PyVal.obj fields))).errorShown = false
        ∧ (coreDispatch (some (PyVal.obj fields))).reachesCreatePost = false) := by
  refine ⟨⟨rfl, rfl, rfl⟩, ?_⟩
  intro fields h
  simp [coreDispatch, h, intentIs, DispatchResult.errorShown, DispatchResult.reachesCreatePost]

/-- C2 witness: the amended statement at a concrete intent-free object. -/
theorem extraction_error_handling_amended_witness :
    coreDispatch (some (PyVal.obj [("data", PyVal.list [])])) = DispatchResult.silentNoop :=
  (extraction_error_handling_amended.2 [("data", PyVal.list [])] rfl).1

/-- C9: the reply resolver extracts the digit group of the leftmost
`"Ref: #<digits>"` marker of the original confirmation text (`"482"` in the
spec's example), and when the original text has no such marker it only
reports the "cannot modify" failure: whatever the model would have answered
and whatever the backend would have done, the trace contains no language
model call and no backend mutation. -/
theorem reply_ref_extraction :
    extractRef "Task Created!\nTask ID: Fix the pump\nRef: #482\nAssigned: Steno"
      = some "482"
    ∧ (∀ (text : String) (act : RAction) (apiOk : Bool),
        extractRef text = none →
        replyTrace text act apiOk = [Eff.userMsg "cannot_modify"]
        ∧ Eff.lmCall ∉ replyTrace text act apiOk
        ∧ (∀ id, Eff.apiDelete id ∉ replyTrace text act apiOk
            ∧ Eff.apiPut id ∉ replyTrace text act apiOk)) := by
  refine ⟨by decide, ?_⟩
  intro text act apiOk h
  refine ⟨by simp [replyTrace, h], by simp [replyTrace, h], fun id => ⟨?_, ?_⟩⟩ <;>
    simp [replyTrace, h]

/-- C9 witness: a markerless original message with a delete-classified
reply produces only the terminal failure message. -/
theorem reply_ref_extraction_witness :
    replyTrace "an old message" RAction.delete true = [Eff.userMsg "cannot_modify"] :=
  (reply_ref_extraction.2 "an old message" RAction.delete true (by decide)).1

/-- C10: a parsed CREATE classification whose `data` is not a JSON list is
wrapped into the one-element list `[data]` (main.py 191), and the CREATE
branch then behaves exactly as it does on the singleton list. -/
theorem create_nonlist_wrapping (d : PyVal) (h : ∀ l, d ≠ PyVal.list l) :
    toTaskList d = [d]
    ∧ toTaskList d = toTaskList (PyVal.list [d])
    ∧ createBranch d = createBranch (PyVal.list [d]) := by
  cases d
  case list l => exact absurd rfl (h l)
  all_goals exact ⟨rfl, rfl, rfl⟩

/-- C10 witness: a single task object. -/
theorem create_nonlist_wrapping_witness :
    toTaskList (PyVal.obj [("description", PyVal.str "Fix the pump")])
      = [PyVal.obj [("description", PyVal.str "Fix the pump")]] :=
  (create_nonlist_wrapping (PyVal.obj [("description", PyVal.str "Fix the pump")])
    (fun _ h => nomatch h)).1

end TaskAdderBot
